import Mathlib

/-!
Verification of the chops net_ip test utilities and components.

Shallow embedding of the C++ sources:
  src/test/include/net_ip/shared_utility_test.hpp
  src/include/net_ip/component/send_to_all.hpp
  src/test/net_ip/basic_io_interface_test.cpp
  src/test/net_ip/detail/shared_utility_test.cpp

Bytes are modelled as Nat values below 256; byte buffers as List Nat.
Every byte produced by the message builders is below 256 by construction
(header bytes are len / 256 and len % 256 with len below 2^16).
-/

/-- Embeds make_body_buf (shared_utility_test.hpp lines 63-69): a body is a
preamble followed by num_body_chars repetitions of body_char. -/
def make_body_buf (pre : List Nat) (body_char : Nat) (num_body_chars : Nat) : List Nat :=
  pre ++ List.replicate num_body_chars body_char

/-- Embeds make_variable_len_msg (shared_utility_test.hpp lines 71-76).
The C++ asserts body.size() < numeric_limits of uint16_t max(), that is
body.size() < 65535; a failed assert aborts, modelled as none.  Otherwise the
message is the 16-bit big-endian body length followed by the body bytes. -/
def make_variable_len_msg (body : List Nat) : Option (List Nat) :=
  if body.length < 65535 then
    some (body.length / 256 :: body.length % 256 :: body)
  else
    none

/-- Embeds make_cr_lf_text_msg (shared_utility_test.hpp lines 78-82): body
followed by CR (0x0D) and LF (0x0A). -/
def make_cr_lf_text_msg (body : List Nat) : List Nat :=
  body ++ [13, 10]

/-- Embeds make_lf_text_msg (shared_utility_test.hpp lines 84-88): body
followed by LF (0x0A). -/
def make_lf_text_msg (body : List Nat) : List Nat :=
  body ++ [10]

/-- Embeds decode_variable_len_msg_hdr (shared_utility_test.hpp lines 90-97).
The C++ asserts sz == 2 (modelled as none for any other size) and reads the
two bytes as a 16-bit big-endian unsigned integer. -/
def decode_variable_len_msg_hdr (buf : List Nat) : Option Nat :=
  match buf with
  | [b0, b1] => some (256 * b0 + b1)
  | _ => none

/-- The concrete body of spec Scenario A: the 13 ASCII bytes of
HappyNewYear! followed by ten Q (0x51) characters. -/
def happy_new_year_body : List Nat :=
  make_body_buf [72, 97, 112, 112, 121, 78, 101, 119, 89, 101, 97, 114, 33] 81 10

/-- C9: the 23-byte body made of the preamble HappyNewYear! and ten Q
characters encodes to exactly 25 bytes: big-endian header 0x00 0x17 followed
by the body bytes unchanged. -/
theorem make_variable_len_msg_happy_new_year :
    happy_new_year_body.length = 23 ∧
    make_variable_len_msg happy_new_year_body = some (0 :: 23 :: happy_new_year_body) ∧
    (0 :: 23 :: happy_new_year_body).length = 25 := by
  refine ⟨by decide, ?_, by decide⟩
  decide

/-- C3 counterexample: a body of length 65535 satisfies the claimed bound
len < 2^16, yet make_variable_len_msg fails its assertion (body.size() <
65535) and produces no message at all, so the claimed decode equation cannot
hold there. -/
theorem make_variable_len_msg_fails_at_65535 :
    (List.replicate 65535 81).length < 2 ^ 16 ∧
    make_variable_len_msg (List.replicate 65535 81) = none := by
  have hlen : (List.replicate 65535 (81 : Nat)).length = 65535 := by
    rw [List.length_replicate]
  constructor
  · rw [hlen]; norm_num
  · unfold make_variable_len_msg
    rw [hlen, if_neg (by norm_num)]

/-- C3 (amended): for every body of length below 2^16 - 1 = 65535 (the bound
enforced by the assert in make_variable_len_msg), decoding the first two bytes
of the encoded message yields the body length. -/
theorem decode_make_variable_len_msg_roundtrip (body : List Nat)
    (h : body.length < 65535) :
    ∃ msg, make_variable_len_msg body = some msg ∧
      decode_variable_len_msg_hdr (msg.take 2) = some body.length := by
  refine ⟨body.length / 256 :: body.length % 256 :: body, ?_, ?_⟩
  · simp [make_variable_len_msg, h]
  · simp [decode_variable_len_msg_hdr, List.take]
    omega

/-- Witness for the round-trip theorem at the concrete two-byte body
[72, 105]. -/
theorem decode_make_variable_len_msg_roundtrip_witness :
    ∃ msg, make_variable_len_msg [72, 105] = some msg ∧
      decode_variable_len_msg_hdr (msg.take 2) = some 2 :=
  decode_make_variable_len_msg_roundtrip [72, 105] (by decide)

/-- Embeds msg_hdlr::operator() (shared_utility_test.hpp lines 122-148).
The call receives the full framed message buf; if its total size exceeds 2 the
counter is incremented, a reply is sent when the reply flag is set, and true
is returned; otherwise (a shutdown message) the counter is untouched, a reply
is still sent when the reply flag is set, and false is returned.  The result
is (return value, new counter value, list of (message, endpoint) sends the
call issued through the io interface). -/
def msg_hdlr (reply : Bool) (cnt : Nat) (buf : List Nat) (endp : Nat) :
    Bool × Nat × List (List Nat × Nat) :=
  if 2 < buf.length then
    (true, cnt + 1, if reply then [(buf, endp)] else [])
  else
    (false, cnt, if reply then [(buf, endp)] else [])

/-- C6 counterexample: the LF-framed message of the non-empty one-byte body
[97] has total size 2, so msg_hdlr returns false and leaves the counter
unchanged even though the body is not empty. -/
theorem msg_hdlr_rejects_nonempty_lf_body :
    make_lf_text_msg [97] = [97, 10] ∧
    ([97] : List Nat) ≠ [] ∧
    (msg_hdlr false 5 (make_lf_text_msg [97]) 0).1 = false ∧
    (msg_hdlr false 5 (make_lf_text_msg [97]) 0).2.1 = 5 := by
  decide

/-- C6 (amended): msg_hdlr returns false exactly when the total delivered
message size is at most 2 bytes; under variable-length and CR-LF framing that
coincides with an empty body, and every message larger than 2 bytes yields
true and increments the counter by exactly one. -/
theorem msg_hdlr_end_of_flow (reply : Bool) (cnt : Nat) (endp : Nat) :
    (∀ msg, (msg_hdlr reply cnt msg endp).1 = false ↔ msg.length ≤ 2) ∧
    (∀ body msg, make_variable_len_msg body = some msg →
      ((msg_hdlr reply cnt msg endp).1 = false ↔ body = [])) ∧
    (∀ body, (msg_hdlr reply cnt (make_cr_lf_text_msg body) endp).1 = false ↔ body = []) ∧
    (∀ msg, 2 < msg.length →
      (msg_hdlr reply cnt msg endp).1 = true ∧
      (msg_hdlr reply cnt msg endp).2.1 = cnt + 1) := by
  have hret : ∀ msg : List Nat, (msg_hdlr reply cnt msg endp).1 = false ↔ msg.length ≤ 2 := by
    intro msg
    unfold msg_hdlr
    by_cases h : 2 < msg.length
    · rw [if_pos h]
      constructor
      · intro hfalse
        exact Bool.noConfusion hfalse
      · intro hle
        exact absurd hle (by omega)
    · rw [if_neg h]
      constructor
      · intro _
        omega
      · intro _
        rfl
  refine ⟨hret, ?_, ?_, ?_⟩
  · intro body msg h
    simp only [make_variable_len_msg] at h
    by_cases hb : body.length < 65535
    · rw [if_pos hb] at h
      injection h with h
      subst h
      rw [hret]
      simp only [List.length_cons]
      constructor
      · intro hle
        exact List.length_eq_zero.mp (by omega)
      · intro hb0
        subst hb0
        simp
    · rw [if_neg hb] at h
      exact absurd h (by simp)
  · intro body
    rw [hret]
    simp only [make_cr_lf_text_msg, List.length_append, List.length_cons, List.length_nil]
    constructor
    · intro hle
      exact List.length_eq_zero.mp (by omega)
    · intro hb0
      subst hb0
      simp
  · intro msg h
    unfold msg_hdlr
    rw [if_pos h]
    exact ⟨rfl, rfl⟩

/-- Witness for the end-of-flow theorem: the concrete 5-byte variable-length
message of body [65, 66, 67] is not a shutdown message, and msg_hdlr
increments the counter on it. -/
theorem msg_hdlr_end_of_flow_witness :
    (msg_hdlr true 7 [0, 3, 65, 66, 67] 9).1 = true ∧
    (msg_hdlr true 7 [0, 3, 65, 66, 67] 9).2.1 = 8 :=
  (msg_hdlr_end_of_flow true 7 9).2.2.2 [0, 3, 65, 66, 67] (by decide)

/-- C10: msg_hdlr decides shutdown by total message size: any delivered
message of total size at most 2 yields false and an unchanged counter, and in
particular the LF-framed message of any single body character (2 bytes in
total) is treated as end-of-flow despite its non-empty body. -/
theorem msg_hdlr_total_size_criterion (reply : Bool) (cnt : Nat) (endp : Nat) :
    (∀ msg : List Nat, msg.length ≤ 2 →
      (msg_hdlr reply cnt msg endp).1 = false ∧
      (msg_hdlr reply cnt msg endp).2.1 = cnt) ∧
    (∀ c : Nat, make_lf_text_msg [c] = [c, 10] ∧
      (msg_hdlr reply cnt (make_lf_text_msg [c]) endp).1 = false ∧
      (msg_hdlr reply cnt (make_lf_text_msg [c]) endp).2.1 = cnt) := by
  have hsmall : ∀ msg : List Nat, msg.length ≤ 2 →
      (msg_hdlr reply cnt msg endp).1 = false ∧
      (msg_hdlr reply cnt msg endp).2.1 = cnt := by
    intro msg h
    unfold msg_hdlr
    rw [if_neg (by omega)]
    exact ⟨rfl, rfl⟩
  refine ⟨hsmall, ?_⟩
  intro c
  exact ⟨rfl, hsmall (make_lf_text_msg [c]) (by simp [make_lf_text_msg])⟩

/-- Witness for the total-size criterion at the concrete LF message [5, 10]
with counter 3. -/
theorem msg_hdlr_total_size_criterion_witness :
    (msg_hdlr false 3 [5, 10] 0).1 = false ∧
    (msg_hdlr false 3 [5, 10] 0).2.1 = 3 :=
  (msg_hdlr_total_size_criterion false 3 0).1 [5, 10] (by decide)

/-- Embeds the state of io_handler_mock (shared_utility_test.hpp lines
176-236): a mock socket, the started flag, and the flags recording which
operations were called. -/
structure io_handler_mock where
  sock : Int := 3
  started : Bool := false
  send_called : Bool := false
  mf_sio_called : Bool := false
  delim_sio_called : Bool := false
  rd_sio_called : Bool := false
  rd_endp_sio_called : Bool := false
  send_sio_called : Bool := false
  send_endp_sio_called : Bool := false
deriving DecidableEq

/-- Embeds the C++ return expression shared by every start_io overload of
io_handler_mock, such as

  return started ? false : started = true, mf_sio_called = true, true;

C++ operator precedence parses this as the comma expression
((started ? false : (started = true)), (mf_sio_called = true), true): the
conditional sets started only when it was false and its value is discarded,
the overload flag is then set, and the value of the whole expression — the
returned value — is the literal true, on every call. -/
def io_handler_mock_sio_step (s : io_handler_mock)
    (set_flag : io_handler_mock → io_handler_mock) : Bool × io_handler_mock :=
  let s1 := if s.started then s else { s with started := true }
  (true, set_flag s1)

/-- Embeds io_handler_mock start_io with msg frame (hpp lines 204-207). -/
def io_handler_mock.start_io_mf (s : io_handler_mock) : Bool × io_handler_mock :=
  io_handler_mock_sio_step s (fun t => { t with mf_sio_called := true })

/-- Embeds io_handler_mock start_io with delimiter (hpp lines 209-212). -/
def io_handler_mock.start_io_delim (s : io_handler_mock) : Bool × io_handler_mock :=
  io_handler_mock_sio_step s (fun t => { t with delim_sio_called := true })

/-- Embeds io_handler_mock read start_io (hpp lines 214-217). -/
def io_handler_mock.start_io_rd (s : io_handler_mock) : Bool × io_handler_mock :=
  io_handler_mock_sio_step s (fun t => { t with rd_sio_called := true })

/-- Embeds io_handler_mock read-with-endpoint start_io (hpp lines 219-222). -/
def io_handler_mock.start_io_rd_endp (s : io_handler_mock) : Bool × io_handler_mock :=
  io_handler_mock_sio_step s (fun t => { t with rd_endp_sio_called := true })

/-- Embeds io_handler_mock send-only start_io (hpp lines 224-226). -/
def io_handler_mock.start_io_send (s : io_handler_mock) : Bool × io_handler_mock :=
  io_handler_mock_sio_step s (fun t => { t with send_sio_called := true })

/-- Embeds io_handler_mock send-only start_io with endpoint (hpp lines
228-230). -/
def io_handler_mock.start_io_send_endp (s : io_handler_mock) : Bool × io_handler_mock :=
  io_handler_mock_sio_step s (fun t => { t with send_endp_sio_called := true })

/-- Embeds io_handler_mock::stop_io (hpp lines 232-234): here the branch with
the comma expression is the one between ? and :, so the intended parse
applies: returns true and clears started only when started was set. -/
def io_handler_mock.stop_io (s : io_handler_mock) : Bool × io_handler_mock :=
  if s.started then (true, { s with started := false }) else (false, s)

/-- A freshly constructed io_handler_mock, all fields defaulted. -/
def fresh_io_handler_mock : io_handler_mock := {}

/-- C2: evaluation of io_handler_mock at the failing input.  After a first
successful start_io, a second start_io call (the delimiter overload) again
returns true — not false as claimed — and changes the handler state by
setting delim_sio_called; the started flag itself is already true and stays
true. -/
theorem io_handler_mock_second_start_io_returns_true :
    (fresh_io_handler_mock.start_io_mf.1 = true ∧
      fresh_io_handler_mock.start_io_mf.2.started = true) ∧
    (fresh_io_handler_mock.start_io_mf.2.start_io_delim.1 = true ∧
      fresh_io_handler_mock.start_io_mf.2.start_io_delim.2 ≠
        fresh_io_handler_mock.start_io_mf.2 ∧
      fresh_io_handler_mock.start_io_mf.2.start_io_delim.2.started = true) ∧
    fresh_io_handler_mock.start_io_mf.2.start_io_mf.1 = true := by
  decide

/-- The library error codes relevant here (spec section 6 error enum). -/
inductive net_ip_errc where
  | invalid_handle
  | already_started
  | not_started
  | message_handler_terminated
deriving DecidableEq

/-- Outcome of a call through a basic_io_interface accessor: a normal return
value, a returned error-result value, or a thrown exception. -/
inductive call_result (α : Type) where
  | ok (val : α)
  | err_result (e : net_ip_errc)
  | thrown
deriving DecidableEq

/-- Embeds io_handler_base_mock (basic_io_interface_test.cpp lines 35-69)
together with the socket member of its tcp/udp derivations: a started flag, a
socket, and output queue stats fixed at (qs_base, qs_base + 1) = (42, 43).
Every start_io overload sets started; stop_io clears it; send does
nothing. -/
structure io_handler_base_mock where
  sock : Nat := 0
  started : Bool := false
deriving DecidableEq

/-- Modelled from the spec: the basic_io_interface handle (its header
include/net_ip/basic_io_interface.hpp is not among the sources; only its test
is).  A handle is a weak reference to an io handler; the model carries the
locked referent, none for a default-constructed (invalid) handle.  Per the
spec (section 4.5) and the repository test basic_io_interface_test.cpp,
accessors throw on an invalid handle and mutators return false on an invalid
handle. -/
abbrev basic_io_interface := Option io_handler_base_mock

/-- The default-constructed, invalid handle. -/
def default_io_intf : basic_io_interface := none

/-- Modelled from the spec: is_valid is true exactly when the handle has a
live referent. -/
def bio_is_valid (io : basic_io_interface) : Bool :=
  io.isSome

/-- Modelled from the spec: is_io_started returns the handler flag on a valid
handle; on an invalid handle the call throws (basic_io_interface_test.cpp
line 116 REQUIRE_THROWS). -/
def bio_is_io_started (io : basic_io_interface) : call_result Bool :=
  match io with
  | none => .thrown
  | some h => .ok h.started

/-- Modelled from the spec: get_socket returns the handler socket on a valid
handle; on an invalid handle the call throws (basic_io_interface_test.cpp
line 117 REQUIRE_THROWS). -/
def bio_get_socket (io : basic_io_interface) : call_result Nat :=
  match io with
  | none => .thrown
  | some h => .ok h.sock

/-- Modelled from the spec: get_output_queue_stats returns the handler stats
snapshot on a valid handle; on an invalid handle the call throws
(basic_io_interface_test.cpp line 118 REQUIRE_THROWS). -/
def bio_get_output_queue_stats (io : basic_io_interface) : call_result (Nat × Nat) :=
  match io with
  | none => .thrown
  | some _ => .ok (42, 43)

/-- Modelled from the spec: send without endpoint (covering the pointer-size,
const buffer and mutable buffer overloads, which all denote the same byte
sequence) returns false and does nothing on an invalid handle, and delegates
to the handler and returns true on a valid one. -/
def bio_send (io : basic_io_interface) (buf : List Nat) : Bool × basic_io_interface :=
  match io with
  | none => (false, none)
  | some h => (true, some h)

/-- Modelled from the spec: send with endpoint, same overload family as
bio_send. -/
def bio_send_endp (io : basic_io_interface) (buf : List Nat) (endp : Nat) :
    Bool × basic_io_interface :=
  match io with
  | none => (false, none)
  | some h => (true, some h)

/-- Modelled from the spec: the msg-frame start_io overload returns false and
does nothing on an invalid handle; on a valid handle it delegates (the test
handler sets started) and returns true. -/
def bio_start_io_mf (io : basic_io_interface) (hdr_size : Nat) : Bool × basic_io_interface :=
  match io with
  | none => (false, none)
  | some h => (true, some { h with started := true })

/-- Modelled from the spec: the delimiter start_io overload. -/
def bio_start_io_delim (io : basic_io_interface) (delim : List Nat) :
    Bool × basic_io_interface :=
  match io with
  | none => (false, none)
  | some h => (true, some { h with started := true })

/-- Modelled from the spec: the fixed-read-size start_io overload. -/
def bio_start_io_rd (io : basic_io_interface) (rd_size : Nat) : Bool × basic_io_interface :=
  match io with
  | none => (false, none)
  | some h => (true, some { h with started := true })

/-- Modelled from the spec: the read-size-with-endpoint start_io overload. -/
def bio_start_io_rd_endp (io : basic_io_interface) (rd_size : Nat) (endp : Nat) :
    Bool × basic_io_interface :=
  match io with
  | none => (false, none)
  | some h => (true, some { h with started := true })

/-- Modelled from the spec: the argument-less send-only start_io overload. -/
def bio_start_io_send (io : basic_io_interface) : Bool × basic_io_interface :=
  match io with
  | none => (false, none)
  | some h => (true, some { h with started := true })

/-- Modelled from the spec: the endpoint-only send-only start_io overload. -/
def bio_start_io_send_endp (io : basic_io_interface) (endp : Nat) :
    Bool × basic_io_interface :=
  match io with
  | none => (false, none)
  | some h => (true, some { h with started := true })

/-- Modelled from the spec: stop_io returns false and does nothing on an
invalid handle; on a valid handle it delegates and returns true. -/
def bio_stop_io (io : basic_io_interface) : Bool × basic_io_interface :=
  match io with
  | none => (false, none)
  | some h => (true, some { h with started := false })

/-- C1 counterexample: on the default-constructed handle, is_io_started does
not report an invalid_handle error result — the call throws instead. -/
theorem bio_is_io_started_invalid_throws_not_err :
    bio_is_io_started default_io_intf ≠ call_result.err_result net_ip_errc.invalid_handle ∧
    bio_is_io_started default_io_intf = call_result.thrown := by
  decide

/-- C1 (amended): on a default-constructed handle, is_io_started, get_socket
and get_output_queue_stats each fail by throwing an exception — none of them
returns normally and none reports an error result. -/
theorem bio_invalid_accessors_throw :
    bio_is_io_started default_io_intf = call_result.thrown ∧
    bio_get_socket default_io_intf = call_result.thrown ∧
    bio_get_output_queue_stats default_io_intf = call_result.thrown ∧
    (∀ b : Bool, bio_is_io_started default_io_intf ≠ call_result.ok b) ∧
    (∀ s : Nat, bio_get_socket default_io_intf ≠ call_result.ok s) ∧
    (∀ q : Nat × Nat, bio_get_output_queue_stats default_io_intf ≠ call_result.ok q) := by
  refine ⟨rfl, rfl, rfl, ?_, ?_, ?_⟩
  · intro b hb
    exact call_result.noConfusion hb
  · intro s hs
    exact call_result.noConfusion hs
  · intro q hq
    exact call_result.noConfusion hq

/-- C4: on the default-constructed handle every send overload, every start_io
overload and stop_io return false, and the handle state is unchanged. -/
theorem bio_invalid_mutators_return_false :
    ∀ (buf delim : List Nat) (endp sz : Nat),
      bio_is_valid default_io_intf = false ∧
      bio_send default_io_intf buf = (false, none) ∧
      bio_send_endp default_io_intf buf endp = (false, none) ∧
      bio_start_io_mf default_io_intf sz = (false, none) ∧
      bio_start_io_delim default_io_intf delim = (false, none) ∧
      bio_start_io_rd default_io_intf sz = (false, none) ∧
      bio_start_io_rd_endp default_io_intf sz endp = (false, none) ∧
      bio_start_io_send default_io_intf = (false, none) ∧
      bio_start_io_send_endp default_io_intf endp = (false, none) ∧
      bio_stop_io default_io_intf = (false, none) := by
  intro buf delim endp sz
  exact ⟨rfl, rfl, rfl, rfl, rfl, rfl, rfl, rfl, rfl, rfl⟩

/-- Modelled from the spec: handles compared by handler identity.  For the
comparison operators of basic_io_interface (whose header is not among the
sources) a handle is abstracted to the address of the handler control block
it refers to, none for an invalid handle. -/
abbrev io_intf_id := Option Nat

/-- Modelled from the spec: two handles are equal iff both are invalid or
both refer to the same handler control block. -/
def io_intf_eq (h1 h2 : io_intf_id) : Bool :=
  match h1, h2 with
  | none, none => true
  | some a, some b => a == b
  | _, _ => false

/-- Modelled from the spec: an invalid handle orders strictly below any valid
handle; valid handles order by handler identity. -/
def io_intf_lt (h1 h2 : io_intf_id) : Bool :=
  match h1, h2 with
  | none, some _ => true
  | some a, some b => a < b
  | _, none => false

/-- C5: handle equality holds exactly when both handles are invalid or both
refer to the same handler; an invalid handle is strictly below every valid
one and never above; among valid handles the order is handler identity;
the order is irreflexive in both directions and transitive. -/
theorem io_intf_compare_spec (h1 h2 h3 : io_intf_id) :
    (io_intf_eq h1 h2 = true ↔ h1 = h2) ∧
    (∀ a : Nat, io_intf_lt none (some a) = true ∧ io_intf_lt (some a) none = false) ∧
    (∀ a b : Nat, io_intf_lt (some a) (some b) = decide (a < b)) ∧
    io_intf_lt h1 h1 = false ∧
    (io_intf_lt h1 h2 = true → io_intf_lt h2 h3 = true → io_intf_lt h1 h3 = true) := by
  refine ⟨?_, ?_, ?_, ?_, ?_⟩
  · cases h1 with
    | none =>
      cases h2 with
      | none => simp [io_intf_eq]
      | some b => simp [io_intf_eq]
    | some a =>
      cases h2 with
      | none => simp [io_intf_eq]
      | some b => simp [io_intf_eq]
  · intro a
    exact ⟨rfl, rfl⟩
  · intro a b
    rfl
  · cases h1 with
    | none => rfl
    | some a => simp [io_intf_lt]
  · cases h1 with
    | none =>
      cases h2 with
      | none =>
        intro hlt
        exact Bool.noConfusion hlt
      | some b =>
        cases h3 with
        | none =>
          intro _ hlt
          exact Bool.noConfusion hlt
        | some c =>
          intro _ _
          rfl
    | some a =>
      cases h2 with
      | none =>
        intro hlt
        exact Bool.noConfusion hlt
      | some b =>
        cases h3 with
        | none =>
          intro _ hlt
          exact Bool.noConfusion hlt
        | some c =>
          intro hab hbc
          simp only [io_intf_lt, decide_eq_true_eq] at hab hbc ⊢
          omega

/-- Witness for the comparison theorem: transitivity applied at the concrete
handles none, some 1 and some 2. -/
theorem io_intf_compare_spec_witness :
    io_intf_lt none (some 2) = true :=
  (io_intf_compare_spec none (some 1) (some 2)).2.2.2.2 (by decide) (by decide)

/-- A handler as seen by the send_to_all collection: its identity and its
output queue stats (output_queue_size, bytes_in_output_queue). -/
structure io_handler_rec where
  hid : Nat
  qstats : Nat × Nat
deriving DecidableEq

/-- A member of the send_to_all collection: a basic_io_interface handle,
none when the handle is invalid (its referent destroyed). -/
abbrev sta_member := Option io_handler_rec

/-- Modelled from the spec: basic_io_interface send as invoked by
send_to_all::send on one member — an invalid handle returns false and
delivers nothing; a valid handle enqueues the buffer to its handler and
returns true.  The delivery is recorded as (handler identity, buffer). -/
def sta_send_one (io : sta_member) (buf : List Nat) : Bool × List (Nat × List Nat) :=
  match io with
  | none => (false, [])
  | some h => (true, [(h.hid, buf)])

/-- Embeds the loop of send_to_all::send (send_to_all.hpp lines 58-63): the
buffer is sent through every member handle in insertion order; the result is
the list of per-member send results and the list of deliveries made. -/
def send_to_all_send_loop (members : List sta_member) (buf : List Nat) :
    List Bool × List (Nat × List Nat) :=
  match members with
  | [] => ([], [])
  | io :: rest =>
    let r := sta_send_one io buf
    let rr := send_to_all_send_loop rest buf
    (r.1 :: rr.1, r.2 ++ rr.2)

/-- Embeds send_to_all::send (send_to_all.hpp lines 58-63).  The member list
is returned unchanged: send is a const member function and only reads
m_io_intfs under the mutex. -/
def send_to_all_send (members : List sta_member) (buf : List Nat) :
    List sta_member × List Bool × List (Nat × List Nat) :=
  (members, send_to_all_send_loop members buf)

/-- Embeds send_to_all::size (send_to_all.hpp lines 71-74). -/
def send_to_all_size (members : List sta_member) : Nat :=
  members.length

/-- C7: send_to_all::send leaves the membership (hence size) unchanged,
invokes send on every member in insertion order — returning true on valid
members and false on invalid ones — and delivers the buffer to exactly the
valid members, in order. -/
theorem send_to_all_send_spec (members : List sta_member) (buf : List Nat) :
    (send_to_all_send members buf).1 = members ∧
    send_to_all_size (send_to_all_send members buf).1 = send_to_all_size members ∧
    (send_to_all_send members buf).2.1 = members.map Option.isSome ∧
    (send_to_all_send members buf).2.2 =
      members.filterMap (fun io => io.map (fun h => (h.hid, buf))) := by
  refine ⟨rfl, rfl, ?_, ?_⟩
  · show (send_to_all_send_loop members buf).1 = members.map Option.isSome
    induction members with
    | nil => rfl
    | cons io rest ih =>
      cases io with
      | none => simpa [send_to_all_send_loop, sta_send_one] using ih
      | some h => simpa [send_to_all_send_loop, sta_send_one] using ih
  · show (send_to_all_send_loop members buf).2 =
      members.filterMap (fun io => io.map (fun h => (h.hid, buf)))
    induction members with
    | nil => rfl
    | cons io rest ih =>
      cases io with
      | none => simpa [send_to_all_send_loop, sta_send_one] using ih
      | some h => simpa [send_to_all_send_loop, sta_send_one] using ih

/-- Modelled from the spec: basic_io_interface get_output_queue_stats as
invoked by send_to_all — it throws on an invalid handle
(basic_io_interface_test.cpp line 118 REQUIRE_THROWS) and returns the handler
stats snapshot on a valid one. -/
def sta_stats_one (io : sta_member) : call_result (Nat × Nat) :=
  match io with
  | none => .thrown
  | some h => .ok h.qstats

/-- Embeds the accumulation loop of send_to_all::get_total_output_queue_stats
(send_to_all.hpp lines 76-85): member stats are added component-wise into the
running total; the first invalid member makes the underlying stats call
throw, which escapes the noexcept function. -/
def send_to_all_stats_loop (members : List sta_member) (tot : Nat × Nat) :
    call_result (Nat × Nat) :=
  match members with
  | [] => .ok tot
  | io :: rest =>
    match sta_stats_one io with
    | .ok qs => send_to_all_stats_loop rest (tot.1 + qs.1, tot.2 + qs.2)
    | _ => .thrown

/-- Embeds send_to_all::get_total_output_queue_stats (send_to_all.hpp lines
76-85), starting from the zero total. -/
def send_to_all_total_stats (members : List sta_member) : call_result (Nat × Nat) :=
  send_to_all_stats_loop members (0, 0)

/-- C8 evaluation at the failing input: with one valid member of stats
(42, 43) and one invalid member, get_total_output_queue_stats throws instead
of returning the sum over the valid members — while on an all-valid
collection it does return the component-wise sum. -/
theorem send_to_all_total_stats_throws_on_invalid :
    send_to_all_total_stats [some ⟨0, (42, 43)⟩, none] = call_result.thrown ∧
    send_to_all_total_stats [some ⟨0, (42, 43)⟩, some ⟨1, (1, 2)⟩] =
      call_result.ok (43, 45) := by
  decide
